import Mathlib

/-!
Shallow embedding of the inventory/order backend (gerencia).

The relational store (tables `productos`, `usuarios`, `pedidos`,
`detalle_pedidos`, `notificaciones`) is modelled as a `Store` record of
lists of rows; each DAO / service operation of the Python source becomes a
pure function from a `Store` (plus arguments) to a result together with
the new `Store`.  `NUMERIC` / `Decimal` columns are modelled as `Rat`
(the Python code round-trips them through `Decimal(str(x))` / `float(x)`;
those conversions are modelled as exact).  A Python `ValueError` /
`KeyError` raised by an operation is modelled by the `Err` type; an
operation that commits before raising returns the committed store next to
the error.
-/

namespace Gerencia

/-- A row of the `productos` table (Modelo/Producto, DAOs/ProductoDAO). -/
structure Producto where
  id : Int
  nombre : String
  descripcion : String
  precio : Rat
  cantidad : Int
  codigo : Option String
  activo : Bool
deriving Repr, DecidableEq

/-- A row of the `usuarios` table (Modelo/Usuario, DAOs/UsuarioDAO). -/
structure Usuario where
  id : Int
  nombre : String
  email : String
  rol : String
  activo : Bool
  password_hash : String
deriving Repr, DecidableEq

/-- An order line object (Modelo/Pedido.DetallePedido); `precio_unitario`
is nullable until the validation step fills it. -/
structure DetallePedido where
  producto_id : Int
  cantidad : Int
  precio_unitario : Option Rat
  pedido_id : Option Int
deriving Repr, DecidableEq

/-- An order object (Modelo/Pedido.Pedido). -/
structure Pedido where
  id : Option Int
  usuario_id : Option Int
  estado : String
  items : List DetallePedido
  total : Rat
deriving Repr, DecidableEq

/-- A persisted row of the `pedidos` table. -/
structure PedidoRow where
  id : Int
  usuario_id : Option Int
  estado : String
  total : Rat
deriving Repr, DecidableEq

/-- A persisted row of the `detalle_pedidos` table. -/
structure DetalleRow where
  id : Int
  pedido_id : Int
  producto_id : Int
  cantidad : Int
  precio_unitario : Rat
  subtotal : Rat
deriving Repr, DecidableEq

/-- A row of the `notificaciones` table (Modelo/Notificacion). -/
structure Notificacion where
  tipo : String
  mensaje : String
  producto_id : Option Int
  destinatario_id : Option Int
  leida : Bool
  nivel : String
deriving Repr, DecidableEq

/-- The relational store.  `nextPedidoId` / `nextDetalleId` model the
`SERIAL` sequences of `pedidos` and `detalle_pedidos`. -/
structure Store where
  productos : List Producto
  usuarios : List Usuario
  pedidos : List PedidoRow
  detalles : List DetalleRow
  notificaciones : List Notificacion
  nextPedidoId : Int
  nextDetalleId : Int
deriving Repr, DecidableEq

/-- The `ValueError` / `KeyError` exceptions the source raises, keyed by
which `raise` site produced them. -/
inductive Err where
  /-- Raised by `PedidoDAO.create` / `PedidoServicio`: "Producto id=… no existe". -/
  | productoNoExiste (pid : Int)
  /-- "La cantidad … debe ser positiva". -/
  | cantidadNoPositiva (pid : Int)
  /-- "Stock insuficiente para producto id=…". -/
  | stockInsuficiente (pid : Int)
  /-- "El pedido debe contener al menos un item". -/
  | pedidoSinItems
  /-- Raised by `PedidoServicio._validar_usuario`: "Usuario con id=… no existe". -/
  | usuarioNoExiste (uid : Int)
  /-- Raised by `PedidoServicio.crear_pedido`: "El pedido debe incluir usuario_id". -/
  | pedidoSinUsuario
  /-- Raised by `ProductoServicio.ajustar_stock`: "Stock insuficiente". -/
  | stockInsuficienteAjuste
  /-- Raised by `ProductoServicio.ajustar_stock`: "Producto con id=… no existe". -/
  | productoNoExisteAjuste (pid : Int)
  /-- A Python `KeyError` from `lectura["…"]` on a malformed reading. -/
  | keyError (campo : String)
deriving Repr, DecidableEq

/-- Decidable equality on results, so concrete runs can be checked by
`decide`. -/
instance exceptDecEq {ε α : Type _} [DecidableEq ε] [DecidableEq α] :
    DecidableEq (Except ε α) := fun a b =>
  match a, b with
  | .error e, .error e' =>
    match decEq e e' with
    | isTrue h => isTrue (h ▸ rfl)
    | isFalse h => isFalse (fun hh => h (Except.error.inj hh))
  | .ok v, .ok v' =>
    match decEq v v' with
    | isTrue h => isTrue (h ▸ rfl)
    | isFalse h => isFalse (fun hh => h (Except.ok.inj hh))
  | .error _, .ok _ => isFalse (fun hh => Except.noConfusion hh)
  | .ok _, .error _ => isFalse (fun hh => Except.noConfusion hh)

/-- Embeds `SELECT * FROM productos WHERE id = %s` (ProductoDAO.get_by_id). -/
def ProductoDAO.get_by_id (σ : Store) (pid : Int) : Option Producto :=
  σ.productos.find? (fun p => p.id == pid)

/-- Embeds `UPDATE productos SET cantidad = … WHERE id = %s`: rewrite the
`cantidad` of every row matching `pid` (the id is a primary key, so at
most one row matches in a well-formed store). -/
def updateCantidad (σ : Store) (pid : Int) (f : Int → Int) : Store :=
  { σ with productos :=
      σ.productos.map (fun p =>
        if p.id == pid then { p with cantidad := f p.cantidad } else p) }

/-- Embeds `ProductoDAO.adjust_stock`: `UPDATE productos SET cantidad = cantidad + %s
WHERE id = %s RETURNING cantidad`, committed immediately; returns `none`
when no row matched. -/
def ProductoDAO.adjust_stock (σ : Store) (pid delta : Int) :
    Option Int × Store :=
  match ProductoDAO.get_by_id σ pid with
  | none => (none, σ)
  | some p => (some (p.cantidad + delta), updateCantidad σ pid (· + delta))

/-- Modelled from the spec: `ProductoDAO.replace_stock` is invoked by
`ProductoServicio.procesar_lecturas_sensor` but no such method exists in
`DAOs/ProductoDAO.py`; spec §4.3 specifies
`replaceStock(productId, newQuantity)`: atomically sets
`quantity = newQuantity` and fails (`ProductNotFound`, here `none` as in
`adjust_stock`) if no row matched. -/
def ProductoDAO.replace_stock (σ : Store) (pid q : Int) :
    Option Int × Store :=
  match ProductoDAO.get_by_id σ pid with
  | none => (none, σ)
  | some _ => (some q, updateCantidad σ pid (fun _ => q))

/-- Embeds `UsuarioDAO.get_by_id`. -/
def UsuarioDAO.get_by_id (σ : Store) (uid : Int) : Option Usuario :=
  σ.usuarios.find? (fun u => u.id == uid)

/-- Embeds `UsuarioDAO.get_usuarios_por_rol`: `SELECT … FROM usuarios WHERE rol = %s
ORDER BY id` (the store keeps `usuarios` in id order, so a filter). -/
def UsuarioDAO.get_usuarios_por_rol (σ : Store) (rol : String) :
    List Usuario :=
  σ.usuarios.filter (fun u => u.rol == rol)

/-- Embeds `NotificacionDAO.create`: insert one notification row (committed). -/
def NotificacionDAO.create (σ : Store) (n : Notificacion) : Store :=
  { σ with notificaciones := σ.notificaciones ++ [n] }

/-- The validation loop of `PedidoDAO.create` (lines 76-91): for each item
`SELECT cantidad, precio FROM productos WHERE id = %s FOR UPDATE`, raise if
the row is missing, the quantity is non-positive or the stock is
insufficient; fill a missing `precio_unitario` from the row's price;
accumulate `total`.  No writes happen in this loop, so every iteration
reads the same store `σ`.  Returns the enriched items and the total. -/
def PedidoDAO.validarYPoblar (σ : Store) :
    List DetallePedido → Rat → Except Err (List DetallePedido × Rat)
  | [], total => .ok ([], total)
  | it :: rest, total =>
    match ProductoDAO.get_by_id σ it.producto_id with
    | none => .error (.productoNoExiste it.producto_id)
    | some row =>
      if it.cantidad ≤ 0 then .error (.cantidadNoPositiva it.producto_id)
      else if row.cantidad < it.cantidad then
        .error (.stockInsuficiente it.producto_id)
      else
        let precio := it.precio_unitario.getD row.precio
        let it' := { it with precio_unitario := some precio }
        match PedidoDAO.validarYPoblar σ rest
            (total + precio * (it.cantidad : Rat)) with
        | .error e => .error e
        | .ok (rest', total') => .ok (it' :: rest', total')

/-- The sequence of product ids on which `PedidoDAO.create` executes
`SELECT … FOR UPDATE` (one statement per item, in the order the items
appear in `pedido.items`; the loop stops at the first item whose
validation raises, the failing item's SELECT having already run). -/
def PedidoDAO.lockSequence (σ : Store) : List DetallePedido → List Int
  | [] => []
  | it :: rest =>
    match ProductoDAO.get_by_id σ it.producto_id with
    | none => [it.producto_id]
    | some row =>
      if it.cantidad ≤ 0 then [it.producto_id]
      else if row.cantidad < it.cantidad then [it.producto_id]
      else it.producto_id :: PedidoDAO.lockSequence σ rest

/-- The insert-and-decrement loop of `PedidoDAO.create` (lines 102-114):
for each (already enriched) item, insert a `detalle_pedidos` row and run
`UPDATE productos SET cantidad = cantidad - %s WHERE id = %s` — with no
check on the resulting quantity.  The updates are sequential, each seeing
the previous one's effect. -/
def PedidoDAO.insertarDetallesYDescontar (pid : Int) :
    Store → List DetallePedido → Store
  | σ, [] => σ
  | σ, it :: rest =>
    let precio := it.precio_unitario.getD 0
    let σ1 := { σ with
      detalles := σ.detalles ++
        [⟨σ.nextDetalleId, pid, it.producto_id, it.cantidad, precio,
          precio * (it.cantidad : Rat)⟩],
      nextDetalleId := σ.nextDetalleId + 1 }
    let σ2 := updateCantidad σ1 it.producto_id (· - it.cantidad)
    PedidoDAO.insertarDetallesYDescontar pid σ2 rest

/-- Embeds `PedidoDAO.create`: the whole order-creation transaction.  Empty-items
guard, validation loop, insert of the `pedidos` header, insert of the
lines with the per-line stock decrement, final (value-preserving)
`UPDATE pedidos SET total`, commit.  On any raise the transaction rolls
back, so an error is returned with the store unchanged. -/
def PedidoDAO.create (σ : Store) (pedido : Pedido) :
    Except Err Pedido × Store :=
  if pedido.items.isEmpty then (.error .pedidoSinItems, σ)
  else
    match PedidoDAO.validarYPoblar σ pedido.items 0 with
    | .error e => (.error e, σ)
    | .ok (items', total) =>
      let pid := σ.nextPedidoId
      let σ1 := { σ with
        pedidos := σ.pedidos ++ [⟨pid, pedido.usuario_id, pedido.estado, total⟩],
        nextPedidoId := pid + 1 }
      let σ2 := PedidoDAO.insertarDetallesYDescontar pid σ1 items'
      let items'' := items'.map (fun it => { it with pedido_id := some pid })
      (.ok { pedido with id := some pid, items := items'', total := total }, σ2)

/-- Embeds `Pedido.calcular_total`: `Σ precio_unitario * cantidad` over the
items, a missing price counting as `0.0`. -/
def Pedido.calcular_total (p : Pedido) : Rat :=
  p.items.foldl
    (fun s it => s + (it.precio_unitario.getD 0) * (it.cantidad : Rat)) 0

/-- Embeds `PedidoServicio._validar_usuario`. -/
def PedidoServicio.validar_usuario (σ : Store) (uid : Int) :
    Except Err Usuario :=
  match UsuarioDAO.get_by_id σ uid with
  | none => .error (.usuarioNoExiste uid)
  | some u => .ok u

/-- The per-item loop of `PedidoServicio._validar_items_y_enriquecer`:
check quantity positive, product exists, stock sufficient; fill a missing
unit price from the product's current price.  Reads only, no writes. -/
def PedidoServicio.validarItemsLoop (σ : Store) :
    List DetallePedido → Except Err (List DetallePedido)
  | [] => .ok []
  | it :: rest =>
    if it.cantidad ≤ 0 then .error (.cantidadNoPositiva it.producto_id)
    else
      match ProductoDAO.get_by_id σ it.producto_id with
      | none => .error (.productoNoExiste it.producto_id)
      | some prod =>
        if prod.cantidad < it.cantidad then
          .error (.stockInsuficiente it.producto_id)
        else
          let it' :=
            { it with precio_unitario := some (it.precio_unitario.getD prod.precio) }
          match PedidoServicio.validarItemsLoop σ rest with
          | .error e => .error e
          | .ok rest' => .ok (it' :: rest')

/-- Embeds `PedidoServicio._validar_items_y_enriquecer`: empty-items guard, the
per-item loop, then `pedido.total = pedido.calcular_total()`. -/
def PedidoServicio.validar_items_y_enriquecer (σ : Store) (pedido : Pedido) :
    Except Err Pedido :=
  if pedido.items.isEmpty then .error .pedidoSinItems
  else
    match PedidoServicio.validarItemsLoop σ pedido.items with
    | .error e => .error e
    | .ok items' =>
      let p' := { pedido with items := items' }
      .ok { p' with total := p'.calcular_total }

/-- A raw item of a dict payload handed to `crear_pedido`:
`{"producto_id": …, "cantidad": …, "precio_unitario": …?}`.  The rebuild
in `crear_pedido` reads only `producto_id` and `cantidad`. -/
structure RawItem where
  producto_id : Int
  cantidad : Int
  precio_unitario : Option Rat
deriving Repr, DecidableEq

/-- Models the `Union[Pedido, dict]` argument of `PedidoServicio.crear_pedido`. -/
inductive CrearPedidoData where
  | obj (p : Pedido)
  | dict (usuario_id : Option Int) (estado : String) (items : List RawItem)
deriving Repr, DecidableEq

/-- The payload-normalisation step of `PedidoServicio.crear_pedido`
(source lines 80-97): a `Pedido` object is taken as-is; a dict payload is
rebuilt keeping only `producto_id` and `cantidad` per item (any
caller-supplied `precio_unitario` in the dict is dropped), failing when
the "items" list is empty. -/
def PedidoServicio.construirPedido : CrearPedidoData → Except Err Pedido
  | .obj p => .ok p
  | .dict uid estado itemsData =>
    if itemsData.isEmpty then .error .pedidoSinItems
    else .ok
      { id := none, usuario_id := uid, estado := estado,
        items := itemsData.map
          (fun it => ⟨it.producto_id, it.cantidad, none, none⟩),
        total := 0 }

/-- Embeds `PedidoServicio.crear_pedido`: payload normalisation, user
validation, item validation/enrichment, `PedidoDAO.create` (which already
decrements stock inside its transaction), and then a second per-item
`ProductoDAO.adjust_stock(producto_id, -cantidad)` loop. -/
def PedidoServicio.crear_pedido (σ : Store) (data : CrearPedidoData) :
    Except Err Pedido × Store :=
  match PedidoServicio.construirPedido data with
  | .error e => (.error e, σ)
  | .ok pedido =>
    match pedido.usuario_id with
    | none => (.error .pedidoSinUsuario, σ)
    | some uid =>
      match PedidoServicio.validar_usuario σ uid with
      | .error e => (.error e, σ)
      | .ok _ =>
        match PedidoServicio.validar_items_y_enriquecer σ pedido with
        | .error e => (.error e, σ)
        | .ok pedido' =>
          match PedidoDAO.create σ pedido' with
          | (.error e, σ') => (.error e, σ')
          | (.ok creado, σ') =>
            let σ2 := creado.items.foldl
              (fun s it =>
                (ProductoDAO.adjust_stock s it.producto_id (-it.cantidad)).2)
              σ'
            (.ok creado, σ2)

/-- Embeds `ProductoServicio.ajustar_stock`: the DAO adjustment commits first
(its own connection, own commit); only afterwards does the service raise
`"Producto … no existe"` or `"Stock insuficiente"`, so a negative result
is reported as an error but the committed store keeps the change. -/
def ProductoServicio.ajustar_stock (σ : Store) (pid delta : Int) :
    Except Err Int × Store :=
  match ProductoDAO.adjust_stock σ pid delta with
  | (none, σ') => (.error (.productoNoExisteAjuste pid), σ')
  | (some q, σ') =>
    if q < 0 then (.error .stockInsuficienteAjuste, σ')
    else (.ok q, σ')

/-- One sensor reading as handed to `procesar_lecturas_sensor`: an
arbitrary JSON dict, so either key may be absent (`none`), in which case
the subscript `lectura["…"]` raises `KeyError`. -/
structure Lectura where
  producto_id : Option Int
  cantidad : Option Int
deriving Repr, DecidableEq

/-- The body of the `for lectura in lecturas` loop of
`ProductoServicio.procesar_lecturas_sensor`: read the two keys (a missing
key raises), `replace_stock`, re-fetch the product (skip when missing),
classify `cantidad == 0` / `cantidad <= 10`, and on a message insert one
notification per admin.  Every DAO write commits as it happens. -/
def ProductoServicio.procesarLectura (admins : List Usuario) (σ : Store)
    (lectura : Lectura) : Except Err Unit × Store :=
  match lectura.producto_id with
  | none => (.error (.keyError ("producto_id")), σ)
  | some pid =>
    match lectura.cantidad with
    | none => (.error (.keyError ("cantidad")), σ)
    | some q =>
      let σ1 := (ProductoDAO.replace_stock σ pid q).2
      match ProductoDAO.get_by_id σ1 pid with
      | none => (.ok (), σ1)
      | some producto =>
        let notif : Option (String × String) :=
          if producto.cantidad == 0 then
            some ("Stock agotado: Producto " ++ toString pid ++
              " está sin stock", "error")
          else if producto.cantidad ≤ 10 then
            some ("Stock bajo: Producto " ++ toString pid ++ " tiene " ++
              toString producto.cantidad ++ " unidades", "warning")
          else none
        match notif with
        | none => (.ok (), σ1)
        | some (mensaje, nivel) =>
          let σ2 := admins.foldl
            (fun s admin => NotificacionDAO.create s
              ⟨"inventario", mensaje, some pid, some admin.id, false, nivel⟩)
            σ1
          (.ok (), σ2)

/-- The reading loop: an exception raised by one iteration propagates out
of the loop (there is no per-reading `try`), aborting the remaining
readings; the writes already committed stay. -/
def ProductoServicio.procesarLoop (admins : List Usuario) :
    Store → List Lectura → Except Err Unit × Store
  | σ, [] => (.ok (), σ)
  | σ, l :: rest =>
    match ProductoServicio.procesarLectura admins σ l with
    | (.error e, σ') => (.error e, σ')
    | (.ok _, σ') => ProductoServicio.procesarLoop admins σ' rest

/-- Embeds `ProductoServicio.procesar_lecturas_sensor`: fetch the admins once,
then run the loop. -/
def ProductoServicio.procesar_lecturas_sensor (σ : Store)
    (lecturas : List Lectura) : Except Err Unit × Store :=
  ProductoServicio.procesarLoop (UsuarioDAO.get_usuarios_por_rol σ ("admin"))
    σ lecturas

/-- Embeds `Sensores/MQTTHandler.manejar_mensaje` after JSON decoding: process a
non-empty batch; the surrounding `try`/`except` catches any exception and
only logs it, so the handler always returns the (possibly partially
updated) store. -/
def manejar_mensaje (σ : Store) (lecturas : List Lectura) : Store :=
  if lecturas.isEmpty then σ
  else (ProductoServicio.procesar_lecturas_sensor σ lecturas).2

/-- Total quantity ordered for one product across the lines of an order
(an order may reference the same product on several lines). -/
def sumCantidad (pid : Int) : List DetallePedido → Int
  | [] => 0
  | it :: rest =>
    (if it.producto_id = pid then it.cantidad else 0) + sumCantidad pid rest

/-! Example rows used by the concrete evaluations below: product 1 with
price 10.00 and quantity 5, a regular user 1 and an admin user 2. -/

/-- Product P of the spec's scenario: id 1, price 10.00, quantity 5. -/
def productoP : Producto := ⟨1, "P", "", 10, 5, none, true⟩

/-- A regular user with id 1. -/
def usuarioU : Usuario := ⟨1, "U", "u@example.com", "user", true, "h"⟩

/-- An admin user with id 2. -/
def adminA : Usuario := ⟨2, "A", "a@example.com", "admin", true, "h"⟩

/-- Base store holding product P, user 1 and admin 2, nothing else. -/
def storeBase : Store := ⟨[productoP], [usuarioU, adminA], [], [], [], 1, 1⟩

/-- Store whose only product has id 1 and quantity 0. -/
def storeAgotado : Store :=
  ⟨[⟨1, "P", "", 10, 0, none, true⟩], [usuarioU], [], [], [], 1, 1⟩

/-- An order with two lines of 3 units of product 1 (stock 5). -/
def pedidoDoble : Pedido :=
  { id := none, usuario_id := some 1, estado := "pendiente",
    items := [⟨1, 3, none, none⟩, ⟨1, 3, none, none⟩], total := 0 }

/-- Store with products 1 (quantity 5) and 2 (quantity 9). -/
def storeDos : Store :=
  ⟨[productoP, ⟨2, "Q", "", 4, 9, none, true⟩], [usuarioU, adminA],
    [], [], [], 1, 1⟩

/-- Lines referencing product 2 first, then product 1. -/
def itemsDesc : List DetallePedido := [⟨2, 1, none, none⟩, ⟨1, 1, none, none⟩]

section Lemmas

/-- Restatement of `List.find?_some` with explicit arguments (the found
element satisfies the predicate). -/
theorem find?_pred {α : Type _} (pred : α → Bool) (l : List α) (a : α)
    (h : l.find? pred = some a) : pred a = true :=
  List.find?_some h

/-- A product lookup after `updateCantidad` sees the update applied to the
looked-up row (the update function preserves row ids, so `find?` still
finds the same row). -/
theorem get_by_id_updateCantidad (σ : Store) (pid pid' : Int) (f : Int → Int) :
    ProductoDAO.get_by_id (updateCantidad σ pid f) pid'
      = (ProductoDAO.get_by_id σ pid').map
          (fun p => if p.id == pid then { p with cantidad := f p.cantidad } else p) := by
  show (σ.productos.map _).find? _ = _
  rw [List.find?_map]
  have hpred : ((fun p : Producto => p.id == pid') ∘ fun p =>
      if (p.id == pid) = true then { p with cantidad := f p.cantidad } else p)
      = fun p : Producto => p.id == pid' := by
    funext p
    by_cases h : (p.id == pid) = true <;> simp [Function.comp, h]
  rw [hpred]
  rfl

/-- Looking up the updated product itself. -/
theorem get_by_id_updateCantidad_self (σ : Store) (pid : Int) (f : Int → Int)
    (p : Producto) (hp : ProductoDAO.get_by_id σ pid = some p) :
    ProductoDAO.get_by_id (updateCantidad σ pid f) pid
      = some { p with cantidad := f p.cantidad } := by
  have hp' : σ.productos.find? (fun x => x.id == pid) = some p := hp
  have hid : (p.id == pid) = true :=
    find?_pred (fun x : Producto => x.id == pid) σ.productos p hp'
  have hpe : p.id = pid := by simpa using hid
  rw [get_by_id_updateCantidad, hp]
  simp [hpe]

/-- Looking up a different product after an update. -/
theorem get_by_id_updateCantidad_other (σ : Store) (pid pid' : Int)
    (f : Int → Int) (h : pid' ≠ pid) :
    ProductoDAO.get_by_id (updateCantidad σ pid f) pid'
      = ProductoDAO.get_by_id σ pid' := by
  rw [get_by_id_updateCantidad]
  cases hp : ProductoDAO.get_by_id σ pid' with
  | none => rfl
  | some p =>
    have hp' : σ.productos.find? (fun x => x.id == pid') = some p := hp
    have hid : (p.id == pid') = true :=
      find?_pred (fun x : Producto => x.id == pid') σ.productos p hp'
    have hpe : p.id = pid' := by simpa using hid
    simp [hpe, h]

end Lemmas

/-- C1.  The spec's scenario claims `CreateOrder(user=1, lines=[{P,3}])`
on P with quantity 5 and price 10.00 succeeds with total 30.00 and leaves
P.quantity = 2.  The embedded `PedidoServicio.crear_pedido` does succeed
with total 30, but the stock is decremented twice — once inside
`PedidoDAO.create` and once more by the service's `adjust_stock` loop —
leaving P.quantity = −1, not 2. -/
theorem crear_pedido_decrementa_dos_veces :
    (PedidoServicio.crear_pedido storeBase
        (.dict (some 1) ("pendiente") [⟨1, 3, none⟩])).1.toOption.map Pedido.total
      = some 30
    ∧ (ProductoDAO.get_by_id
        (PedidoServicio.crear_pedido storeBase
          (.dict (some 1) ("pendiente") [⟨1, 3, none⟩])).2 1).map Producto.cantidad
      = some (-1) := by
  norm_num [PedidoServicio.crear_pedido, PedidoServicio.construirPedido,
    PedidoServicio.validar_usuario,
    UsuarioDAO.get_by_id, PedidoServicio.validar_items_y_enriquecer,
    PedidoServicio.validarItemsLoop, ProductoDAO.get_by_id,
    Pedido.calcular_total, PedidoDAO.create, PedidoDAO.validarYPoblar,
    PedidoDAO.insertarDetallesYDescontar, updateCantidad,
    ProductoDAO.adjust_stock, ProductoDAO.replace_stock,
    ProductoServicio.ajustar_stock, ProductoServicio.procesar_lecturas_sensor,
    ProductoServicio.procesarLoop, ProductoServicio.procesarLectura,
    UsuarioDAO.get_usuarios_por_rol, NotificacionDAO.create,
    PedidoDAO.lockSequence, Except.toOption, List.find?,
    storeBase, storeAgotado, storeDos, productoP, usuarioU, adminA,
    pedidoDoble, itemsDesc]

/-- C2.  The non-negative stock invariant is not preserved:
`ProductoServicio.ajustar_stock` commits the adjusted (negative) quantity
before the service raises "Stock insuficiente", so after adjusting product
1 (quantity 0) by −1 the stored quantity is −1. -/
theorem ajustar_stock_rompe_invariante :
    (ProductoServicio.ajustar_stock storeAgotado 1 (-1)).1
      = .error .stockInsuficienteAjuste
    ∧ (ProductoDAO.get_by_id
        (ProductoServicio.ajustar_stock storeAgotado 1 (-1)).2 1).map
        Producto.cantidad = some (-1) := by
  decide


/-- C4 counterexample.  The decrement step of `PedidoDAO.create` performs
no below-zero check: an order with two lines of 3 units of product 1
(stock 5) validates line by line against the pre-transaction snapshot,
succeeds (no StockConflict error), and commits quantity −1. -/
theorem dao_create_sin_chequeo_defensivo :
    (PedidoDAO.create storeBase pedidoDoble).1.toOption.isSome = true
    ∧ (ProductoDAO.get_by_id (PedidoDAO.create storeBase pedidoDoble).2 1).map
        Producto.cantidad = some (-1) := by
  decide


/-- C5 counterexample.  A valid two-line order listing product 2 before
product 1 acquires its `FOR UPDATE` row locks in the sequence [2, 1] —
the order the lines appear in, not ascending product id. -/
theorem lock_order_no_ascendente :
    PedidoDAO.lockSequence storeDos itemsDesc = [2, 1]
    ∧ ¬ List.Sorted (· ≤ ·) (PedidoDAO.lockSequence storeDos itemsDesc)
    ∧ (PedidoDAO.create storeDos
        { id := none, usuario_id := some 1, estado := "pendiente",
          items := itemsDesc, total := 0 }).1.toOption.isSome = true := by
  have heq : PedidoDAO.lockSequence storeDos itemsDesc = [2, 1] := by
    decide
  refine ⟨heq, ?_, by decide⟩
  intro hs
  have h21 : (2 : Int) ≤ 1 := by
    rw [heq] at hs
    exact (List.sorted_cons.mp hs).1 1 (by simp)
  omega

/-- C6 counterexample.  A malformed reading (missing the "cantidad" key)
raises `KeyError` with no per-reading handler, so the second reading of
the batch — which would set product 1's stock to 50 — is never processed:
the pipeline returns the error and product 1 still has quantity 5. -/
theorem lectura_malformada_aborta_lote :
    (ProductoServicio.procesar_lecturas_sensor storeBase
        [⟨some 1, none⟩, ⟨some 1, some 50⟩]).1 = .error (.keyError ("cantidad"))
    ∧ (ProductoDAO.get_by_id
        (ProductoServicio.procesar_lecturas_sensor storeBase
          [⟨some 1, none⟩, ⟨some 1, some 50⟩]).2 1).map Producto.cantidad
      = some 5 := by
  decide

/-- C7 counterexample.  A sensor reading of −1 for product 1 yields a
stored quantity of −1, which is neither 0 nor in [1, 10]; the claim says
no notification is created, but the code's `elif cantidad <= 10` branch
fires and one warning notification (for the single admin) is inserted. -/
theorem lectura_negativa_genera_warning :
    ((ProductoServicio.procesar_lecturas_sensor storeBase
        [⟨some 1, some (-1)⟩]).2.notificaciones.map Notificacion.nivel
      = ["warning"])
    ∧ ((ProductoDAO.get_by_id
        (ProductoServicio.procesar_lecturas_sensor storeBase
          [⟨some 1, some (-1)⟩]).2 1).map Producto.cantidad = some (-1)) := by
  decide

/-- Setting a product's quantity to the same absolute value twice is the
same as setting it once. -/
theorem updateCantidad_const_idem (σ : Store) (pid q : Int) :
    updateCantidad (updateCantidad σ pid (fun _ => q)) pid (fun _ => q)
      = updateCantidad σ pid (fun _ => q) := by
  unfold updateCantidad
  simp only [List.map_map]
  congr 1
  apply List.map_congr_left
  intro p _
  by_cases h : (p.id == pid) = true <;> simp [Function.comp, h]

/-- C8.  replaceStock (modelled from the spec, absent from the source DAO)
is idempotent: on an existing product, both calls return the new quantity
and the second call leaves the store exactly as the first left it; on a
missing product it fails returning `none` and an unchanged store. -/
theorem replace_stock_idempotente (σ : Store) (pid q : Int) :
    (∀ prod, ProductoDAO.get_by_id σ pid = some prod →
      ProductoDAO.replace_stock σ pid q
          = (some q, updateCantidad σ pid (fun _ => q))
        ∧ ProductoDAO.replace_stock (ProductoDAO.replace_stock σ pid q).2 pid q
          = (some q, (ProductoDAO.replace_stock σ pid q).2))
    ∧ (ProductoDAO.get_by_id σ pid = none →
        ProductoDAO.replace_stock σ pid q = (none, σ)) := by
  constructor
  · intro prod hp
    have h1 : ProductoDAO.replace_stock σ pid q
        = (some q, updateCantidad σ pid (fun _ => q)) := by
      unfold ProductoDAO.replace_stock
      rw [hp]
    refine ⟨h1, ?_⟩
    rw [h1]
    have h2 : ProductoDAO.get_by_id (updateCantidad σ pid (fun _ => q)) pid
        = some { prod with cantidad := q } :=
      get_by_id_updateCantidad_self σ pid (fun _ => q) prod hp
    unfold ProductoDAO.replace_stock
    rw [h2, updateCantidad_const_idem]
  · intro hp
    unfold ProductoDAO.replace_stock
    rw [hp]

/-- Witness for C8 at product 1 of the base store with quantity 7. -/
theorem replace_stock_idempotente_witness :
    ProductoDAO.get_by_id storeBase 1 = some productoP
    ∧ (ProductoDAO.replace_stock storeBase 1 7
          = (some 7, updateCantidad storeBase 1 (fun _ => 7))
        ∧ ProductoDAO.replace_stock (ProductoDAO.replace_stock storeBase 1 7).2 1 7
          = (some 7, (ProductoDAO.replace_stock storeBase 1 7).2)) :=
  ⟨by decide, (replace_stock_idempotente storeBase 1 7).1 productoP (by decide)⟩

/-- C9.  When the adjusted quantity is negative,
`ProductoServicio.ajustar_stock` raises "Stock insuficiente" — but the
DAO committed first on its own connection, so the stored quantity already
equals the old quantity plus the (negative) delta. -/
theorem ajustar_stock_error_tras_commit (σ : Store) (pid delta : Int)
    (prod : Producto) (hp : ProductoDAO.get_by_id σ pid = some prod)
    (hneg : prod.cantidad + delta < 0) :
    ProductoServicio.ajustar_stock σ pid delta
      = (.error .stockInsuficienteAjuste, updateCantidad σ pid (· + delta))
    ∧ (ProductoDAO.get_by_id
        (ProductoServicio.ajustar_stock σ pid delta).2 pid).map Producto.cantidad
      = some (prod.cantidad + delta) := by
  have h1 : ProductoDAO.adjust_stock σ pid delta
      = (some (prod.cantidad + delta), updateCantidad σ pid (· + delta)) := by
    unfold ProductoDAO.adjust_stock
    rw [hp]
  have h2 : ProductoServicio.ajustar_stock σ pid delta
      = (.error .stockInsuficienteAjuste, updateCantidad σ pid (· + delta)) := by
    unfold ProductoServicio.ajustar_stock
    rw [h1]
    simp [hneg]
  refine ⟨h2, ?_⟩
  rw [h2, get_by_id_updateCantidad_self σ pid (· + delta) prod hp]
  rfl

/-- Witness for C9: product 1 with quantity 0, delta −1. -/
theorem ajustar_stock_error_tras_commit_witness :
    ProductoDAO.get_by_id storeAgotado 1
        = some (⟨1, "P", "", 10, 0, none, true⟩ : Producto)
    ∧ ((⟨1, "P", "", 10, 0, none, true⟩ : Producto).cantidad + (-1) < 0)
    ∧ (ProductoServicio.ajustar_stock storeAgotado 1 (-1)
        = (.error .stockInsuficienteAjuste,
           updateCantidad storeAgotado 1 (· + (-1)))
      ∧ (ProductoDAO.get_by_id
          (ProductoServicio.ajustar_stock storeAgotado 1 (-1)).2 1).map
          Producto.cantidad
        = some ((⟨1, "P", "", 10, 0, none, true⟩ : Producto).cantidad + (-1))) :=
  ⟨by decide, by decide,
   ajustar_stock_error_tras_commit storeAgotado 1 (-1)
     ⟨1, "P", "", 10, 0, none, true⟩ (by decide) (by decide)⟩

/-- One unfolding step of the reading loop. -/
theorem procesarLoop_cons (admins : List Usuario) (σ : Store) (l : Lectura)
    (rest : List Lectura) :
    ProductoServicio.procesarLoop admins σ (l :: rest)
      = match ProductoServicio.procesarLectura admins σ l with
        | (.error e, σ') => (.error e, σ')
        | (.ok _, σ') => ProductoServicio.procesarLoop admins σ' rest := rfl

/-- C6 amended.  Only the missing-product case is handled per-reading: a
well-formed reading whose product does not exist is logged and skipped
and the remaining readings are processed; but a reading that raises any
other error (here a malformed reading missing its "cantidad" key) aborts
the whole remainder of the batch — the exception is caught only by the
`try` around the whole message in `manejar_mensaje`. -/
theorem lectura_error_no_es_por_lectura (σ : Store) (l : Lectura)
    (rest : List Lectura) (pid : Int) (hpid : l.producto_id = some pid) :
    (∀ q, l.cantidad = some q → ProductoDAO.get_by_id σ pid = none →
      ProductoServicio.procesar_lecturas_sensor σ (l :: rest)
        = ProductoServicio.procesar_lecturas_sensor σ rest)
    ∧ (l.cantidad = none →
      ProductoServicio.procesar_lecturas_sensor σ (l :: rest)
        = (.error (.keyError ("cantidad")), σ)) := by
  constructor
  · intro q hq hnone
    have hrep : ProductoDAO.replace_stock σ pid q = (none, σ) := by
      unfold ProductoDAO.replace_stock
      rw [hnone]
    have hlect : ProductoServicio.procesarLectura
        (UsuarioDAO.get_usuarios_por_rol σ ("admin")) σ l = (.ok (), σ) := by
      simp only [ProductoServicio.procesarLectura, hpid, hq, hrep, hnone]
    unfold ProductoServicio.procesar_lecturas_sensor
    rw [procesarLoop_cons, hlect]
  · intro hq
    have hlect : ProductoServicio.procesarLectura
        (UsuarioDAO.get_usuarios_por_rol σ ("admin")) σ l
          = (.error (.keyError ("cantidad")), σ) := by
      simp only [ProductoServicio.procesarLectura, hpid, hq]
    unfold ProductoServicio.procesar_lecturas_sensor
    rw [procesarLoop_cons, hlect]

/-- Witness for C6 amended: both branches at concrete inputs — a reading
for the absent product 99 is skipped (the batch result is that of the
rest), and a reading missing "cantidad" aborts with `KeyError`. -/
theorem lectura_error_no_es_por_lectura_witness :
    ((⟨some 99, some 3⟩ : Lectura).cantidad = some 3
      ∧ ProductoDAO.get_by_id storeBase 99 = none
      ∧ ProductoServicio.procesar_lecturas_sensor storeBase
          [⟨some 99, some 3⟩, ⟨some 1, some 50⟩]
        = ProductoServicio.procesar_lecturas_sensor storeBase
            [⟨some 1, some 50⟩])
    ∧ ProductoServicio.procesar_lecturas_sensor storeBase [⟨some 1, none⟩]
        = (.error (.keyError ("cantidad")), storeBase) :=
  ⟨⟨rfl, by decide,
    (lectura_error_no_es_por_lectura storeBase ⟨some 99, some 3⟩
      [⟨some 1, some 50⟩] 99 rfl).1 3 rfl (by decide)⟩,
   (lectura_error_no_es_por_lectura storeBase ⟨some 1, none⟩ [] 1 rfl).2 rfl⟩

/-- C5 amended.  For every order whose validation loop succeeds, the
`FOR UPDATE` locks are acquired on the products in the order the lines
appear in the request — not sorted by product id. -/
theorem lock_sequence_orden_de_aparicion (σ : Store) (items : List DetallePedido) :
    ∀ t : Rat, (PedidoDAO.validarYPoblar σ items t).isOk = true →
      PedidoDAO.lockSequence σ items = items.map (fun it => it.producto_id) := by
  induction items with
  | nil =>
    intro t _
    rfl
  | cons it rest ih =>
    intro t h
    cases hg : ProductoDAO.get_by_id σ it.producto_id with
    | none =>
      simp [PedidoDAO.validarYPoblar, hg, Except.isOk, Except.toBool] at h
    | some row =>
      simp only [PedidoDAO.validarYPoblar, hg] at h
      by_cases h1 : it.cantidad ≤ 0
      · simp [if_pos h1, Except.isOk, Except.toBool] at h
      · simp only [if_neg h1] at h
        by_cases h2 : row.cantidad < it.cantidad
        · simp [if_pos h2, Except.isOk, Except.toBool] at h
        · simp only [if_neg h2] at h
          cases hr : PedidoDAO.validarYPoblar σ rest
              (t + (it.precio_unitario.getD row.precio) * (it.cantidad : Rat)) with
          | error e =>
            simp [hr, Except.isOk, Except.toBool] at h
          | ok pr =>
            have hok : (PedidoDAO.validarYPoblar σ rest
                (t + (it.precio_unitario.getD row.precio) * (it.cantidad : Rat))).isOk
                  = true := by
              rw [hr]
              rfl
            simp only [PedidoDAO.lockSequence, hg, if_neg h1, if_neg h2]
            rw [ih _ hok]
            rfl

/-- Witness for C5 amended: the two-line order of the counterexample
validates and locks in list order [2, 1]. -/
theorem lock_sequence_orden_de_aparicion_witness :
    (PedidoDAO.validarYPoblar storeDos itemsDesc 0).isOk = true
    ∧ PedidoDAO.lockSequence storeDos itemsDesc
      = itemsDesc.map (fun it => it.producto_id) :=
  ⟨by decide, lock_sequence_orden_de_aparicion storeDos itemsDesc 0 (by decide)⟩

/-- A failing `PedidoDAO.create` rolls the transaction back: the returned
store is the input store. -/
theorem pedido_dao_create_error_state (σ : Store) (p : Pedido) (e : Err)
    (σ' : Store) (h : PedidoDAO.create σ p = (.error e, σ')) : σ' = σ := by
  unfold PedidoDAO.create at h
  split at h
  · injection h with h1 h2
    exact h2.symm
  · split at h
    · injection h with h1 h2
      exact h2.symm
    · injection h with h1 h2
      exact Except.noConfusion h1

/-- A failing `PedidoServicio.crear_pedido` leaves the store unchanged
(every service-level validation error returns before any write, and a DAO
error rolls back). -/
theorem crear_pedido_error_no_cambia_estado (σ : Store) (data : CrearPedidoData)
    (e : Err) (σ' : Store)
    (h : PedidoServicio.crear_pedido σ data = (.error e, σ')) : σ' = σ := by
  unfold PedidoServicio.crear_pedido at h
  split at h
  · injection h with h1 h2
    exact h2.symm
  · split at h
    · injection h with h1 h2
      exact h2.symm
    · split at h
      · injection h with h1 h2
        exact h2.symm
      · split at h
        · injection h with h1 h2
          exact h2.symm
        · split at h
          · rename_i σ2 heq
            injection h with h1 h2
            subst h2
            exact pedido_dao_create_error_state σ _ _ _ heq
          · injection h with h1 h2
            exact Except.noConfusion h1

/-- C3.  Creating an order that references a non-existent product fails
with the "Producto … no existe" error, and any order-creation failure
leaves the store unchanged — no order header, no order line, no stock
change. -/
theorem crear_pedido_producto_inexistente (σ : Store) (uid : Int) (u : Usuario)
    (estado : String) (it : RawItem) (rest : List RawItem)
    (hu : UsuarioDAO.get_by_id σ uid = some u)
    (hq : 0 < it.cantidad)
    (hp : ProductoDAO.get_by_id σ it.producto_id = none) :
    PedidoServicio.crear_pedido σ (.dict (some uid) estado (it :: rest))
      = (.error (.productoNoExiste it.producto_id), σ)
    ∧ ∀ data e σ', PedidoServicio.crear_pedido σ data = (.error e, σ') →
        σ' = σ := by
  refine ⟨?_, fun data e σ' h => crear_pedido_error_no_cambia_estado σ data e σ' h⟩
  have hnot : ¬ (it.cantidad ≤ 0) := by omega
  unfold PedidoServicio.crear_pedido PedidoServicio.construirPedido
    PedidoServicio.validar_usuario
    PedidoServicio.validar_items_y_enriquecer PedidoServicio.validarItemsLoop
  simp [hu, hp, hnot]

/-- Witness for C3: a one-line order for the absent product 99 fails with
the product-not-found error and returns the base store unchanged. -/
theorem crear_pedido_producto_inexistente_witness :
    UsuarioDAO.get_by_id storeBase 1 = some usuarioU
    ∧ (0 : Int) < (⟨99, 2, none⟩ : RawItem).cantidad
    ∧ ProductoDAO.get_by_id storeBase 99 = none
    ∧ PedidoServicio.crear_pedido storeBase
        (.dict (some 1) ("pendiente") [⟨99, 2, none⟩])
      = (.error (.productoNoExiste 99), storeBase) :=
  ⟨by decide, by decide, by decide,
   (crear_pedido_producto_inexistente storeBase 1 usuarioU ("pendiente")
      ⟨99, 2, none⟩ [] (by decide) (by decide) (by decide)).1⟩

/-- After the insert-and-decrement loop, every product's quantity has
been decreased by the total quantity its lines ordered — unconditionally,
with no lower bound. -/
theorem insertar_descontar_cantidad (detPid : Int) (items : List DetallePedido) :
    ∀ σ pid, (ProductoDAO.get_by_id
        (PedidoDAO.insertarDetallesYDescontar detPid σ items) pid).map
          Producto.cantidad
      = (ProductoDAO.get_by_id σ pid).map
          (fun p => p.cantidad - sumCantidad pid items) := by
  induction items with
  | nil =>
    intro σ pid
    simp [PedidoDAO.insertarDetallesYDescontar, sumCantidad]
  | cons it rest ih =>
    intro σ pid
    show (ProductoDAO.get_by_id
        (PedidoDAO.insertarDetallesYDescontar detPid _ rest) pid).map
          Producto.cantidad = _
    rw [ih, get_by_id_updateCantidad]
    unfold ProductoDAO.get_by_id
    dsimp only
    cases hfind : σ.productos.find? (fun p => p.id == pid) with
    | none => simp
    | some p =>
      have hid : p.id = pid := by
        simpa using find?_pred (fun x : Producto => x.id == pid) σ.productos p hfind
      by_cases hc : it.producto_id = pid
      · have hcb : (p.id == it.producto_id) = true := by
          simp [hid, hc]
        simp [sumCantidad, hcb, if_pos hc, sub_sub]
        rw [if_pos (show p.id = it.producto_id by rw [hid, hc])]
        dsimp only
        omega
      · have hne : pid ≠ it.producto_id := fun hh => hc hh.symm
        have hcb : (p.id == it.producto_id) = false := by
          simp [hid, hne]
        simp [sumCantidad, hcb, if_neg hc]
        rw [if_neg (show ¬ p.id = it.producto_id by rw [hid]; exact hne)]

/-- A successful run of the validation loop preserves each product's
summed ordered quantity (only unit prices are filled in). -/
theorem validar_sumCantidad (σ : Store) (pid : Int) :
    ∀ (items : List DetallePedido) (t : Rat) (res : List DetallePedido × Rat),
      PedidoDAO.validarYPoblar σ items t = .ok res →
        sumCantidad pid res.1 = sumCantidad pid items := by
  intro items
  induction items with
  | nil =>
    intro t res h
    simp only [PedidoDAO.validarYPoblar] at h
    injection h with h1
    rw [← h1]
  | cons it rest ih =>
    intro t res h
    simp only [PedidoDAO.validarYPoblar] at h
    cases hg : ProductoDAO.get_by_id σ it.producto_id with
    | none =>
      simp only [hg] at h
      exact Except.noConfusion h
    | some row =>
      simp only [hg] at h
      by_cases h1 : it.cantidad ≤ 0
      · rw [if_pos h1] at h
        exact Except.noConfusion h
      · rw [if_neg h1] at h
        by_cases h2 : row.cantidad < it.cantidad
        · rw [if_pos h2] at h
          exact Except.noConfusion h
        · rw [if_neg h2] at h
          cases hr : PedidoDAO.validarYPoblar σ rest
              (t + (it.precio_unitario.getD row.precio) * (it.cantidad : Rat)) with
          | error e =>
            rw [hr] at h
            exact Except.noConfusion h
          | ok pr =>
            obtain ⟨rest', total'⟩ := pr
            rw [hr] at h
            injection h with h1
            rw [← h1]
            have hrec := ih _ (rest', total') hr
            dsimp only at hrec ⊢
            simp only [sumCantidad]
            rw [hrec]

/-- C4 amended.  The decrement step of `PedidoDAO.create` performs no
below-zero check: whenever the transaction succeeds, each product's
stored quantity is unconditionally set to its old quantity minus the
summed quantity of all lines referencing it (validation only checked each
line separately against the pre-transaction snapshot), so an order with
several lines for one product can succeed and leave the quantity
negative. -/
theorem dao_create_decrementa_sin_cota (σ : Store) (p : Pedido)
    (pid : Int) (prod : Producto)
    (h : (PedidoDAO.create σ p).1.isOk = true)
    (hp : ProductoDAO.get_by_id σ pid = some prod) :
    (ProductoDAO.get_by_id (PedidoDAO.create σ p).2 pid).map Producto.cantidad
      = some (prod.cantidad - sumCantidad pid p.items) := by
  by_cases hempty : p.items.isEmpty
  · simp [PedidoDAO.create, hempty, Except.isOk, Except.toBool] at h
  · cases hv : PedidoDAO.validarYPoblar σ p.items 0 with
    | error e =>
      simp [PedidoDAO.create, hempty, hv, Except.isOk, Except.toBool] at h
    | ok pr =>
      obtain ⟨items', total⟩ := pr
      simp only [PedidoDAO.create, hempty, hv, Bool.false_eq_true, if_false]
      rw [insertar_descontar_cantidad]
      have hp' : σ.productos.find? (fun x => x.id == pid) = some prod := hp
      unfold ProductoDAO.get_by_id
      dsimp only
      rw [hp']
      rw [validar_sumCantidad σ pid p.items 0 (items', total) hv]
      rfl

/-- Witness for C4 amended: the duplicate-line order of the
counterexample succeeds and leaves product 1 at 5 − (3 + 3) = −1. -/
theorem dao_create_decrementa_sin_cota_witness :
    (PedidoDAO.create storeBase pedidoDoble).1.isOk = true
    ∧ ProductoDAO.get_by_id storeBase 1 = some productoP
    ∧ (ProductoDAO.get_by_id (PedidoDAO.create storeBase pedidoDoble).2 1).map
        Producto.cantidad
      = some (productoP.cantidad - sumCantidad 1 pedidoDoble.items) :=
  ⟨by decide, by decide,
   dao_create_decrementa_sin_cota storeBase pedidoDoble 1 productoP
     (by decide) (by decide)⟩

/-- Folding `NotificacionDAO.create` over the admin list appends exactly
one notification per admin. -/
theorem foldl_notificaciones (f : Usuario → Notificacion) (admins : List Usuario) :
    ∀ σ : Store,
      (admins.foldl (fun s a => NotificacionDAO.create s (f a)) σ).notificaciones
        = σ.notificaciones ++ admins.map f := by
  induction admins with
  | nil =>
    intro σ
    simp
  | cons a rest ih =>
    intro σ
    simp only [List.foldl, List.map]
    rw [ih]
    simp [NotificacionDAO.create]

/-- C7 amended.  For a reading whose product exists, the classification
appends, per admin: one error notification when the resulting quantity is
0; one warning notification when the quantity is ≤ 10 and ≠ 0 (including
negative readings, via the `elif cantidad <= 10` branch); and nothing
only when the quantity exceeds 10. -/
theorem clasificacion_lectura (σ : Store) (pid q : Int) (prod : Producto)
    (hp : ProductoDAO.get_by_id σ pid = some prod) :
    (ProductoServicio.procesar_lecturas_sensor σ [⟨some pid, some q⟩]).2.notificaciones
      = σ.notificaciones ++
        (if q = 0 then
          (UsuarioDAO.get_usuarios_por_rol σ ("admin")).map (fun a =>
            ⟨"inventario",
             "Stock agotado: Producto " ++ toString pid ++ " está sin stock",
             some pid, some a.id, false, "error"⟩)
         else if q ≤ 10 then
          (UsuarioDAO.get_usuarios_por_rol σ ("admin")).map (fun a =>
            ⟨"inventario",
             "Stock bajo: Producto " ++ toString pid ++ " tiene " ++
               toString q ++ " unidades",
             some pid, some a.id, false, "warning"⟩)
         else []) := by
  have hrep : (ProductoDAO.replace_stock σ pid q).2
      = updateCantidad σ pid (fun _ => q) := by
    unfold ProductoDAO.replace_stock
    rw [hp]
  have hget : ProductoDAO.get_by_id (updateCantidad σ pid (fun _ => q)) pid
      = some { prod with cantidad := q } :=
    get_by_id_updateCantidad_self σ pid (fun _ => q) prod hp
  have hnotif : (updateCantidad σ pid (fun _ => q)).notificaciones
      = σ.notificaciones := rfl
  unfold ProductoServicio.procesar_lecturas_sensor
  rw [procesarLoop_cons]
  simp only [ProductoServicio.procesarLectura, hrep, hget]
  by_cases hq0 : q = 0
  · have hb : (({ prod with cantidad := q } : Producto).cantidad == 0) = true := by
      simp [hq0]
    simp only [hb, if_true, if_pos hq0]
    simp only [ProductoServicio.procesarLoop]
    rw [foldl_notificaciones
      (fun a => ⟨"inventario",
        "Stock agotado: Producto " ++ toString pid ++ " está sin stock",
        some pid, some a.id, false, "error"⟩)]
    rw [hnotif]
  · have hb : (({ prod with cantidad := q } : Producto).cantidad == 0) = false := by
      simp [hq0]
    simp only [hb, Bool.false_eq_true, if_false, if_neg hq0]
    by_cases hq10 : q ≤ 10
    · have hble : ({ prod with cantidad := q } : Producto).cantidad ≤ 10 := hq10
      simp only [if_pos hble, if_pos hq10]
      simp only [ProductoServicio.procesarLoop]
      rw [foldl_notificaciones
        (fun a => ⟨"inventario",
          "Stock bajo: Producto " ++ toString pid ++ " tiene " ++
            toString ({ prod with cantidad := q} : Producto).cantidad ++ " unidades",
          some pid, some a.id, false, "warning"⟩)]
      rw [hnotif]
    · have hble : ¬ ({ prod with cantidad := q } : Producto).cantidad ≤ 10 := hq10
      simp only [if_neg hble, if_neg hq10]
      simp only [ProductoServicio.procesarLoop]
      rw [hnotif]
      simp

/-- Witness for C7 amended: a zero reading for product 1 of the base
store appends one error notification for the single admin. -/
theorem clasificacion_lectura_witness :
    ProductoDAO.get_by_id storeBase 1 = some productoP
    ∧ (ProductoServicio.procesar_lecturas_sensor
        storeBase [⟨some 1, some 0⟩]).2.notificaciones
      = storeBase.notificaciones ++
        (if (0 : Int) = 0 then
          (UsuarioDAO.get_usuarios_por_rol storeBase ("admin")).map (fun a =>
            ⟨"inventario",
             "Stock agotado: Producto " ++ toString (1 : Int) ++ " está sin stock",
             some 1, some a.id, false, "error"⟩)
         else if (0 : Int) ≤ 10 then
          (UsuarioDAO.get_usuarios_por_rol storeBase ("admin")).map (fun a =>
            ⟨"inventario",
             "Stock bajo: Producto " ++ toString (1 : Int) ++ " tiene " ++
               toString (0 : Int) ++ " unidades",
             some 1, some a.id, false, "warning"⟩)
         else []) :=
  ⟨by decide, clasificacion_lectura storeBase 1 0 productoP (by decide)⟩

/-- On items whose unit price is absent, a successful run of the
service's validation loop returns items whose price is snapshotted from
the product's current stored price (and every returned price is set). -/
theorem validarItemsLoop_precio_none (σ : Store) :
    ∀ (ds ds' : List DetallePedido),
      (∀ it ∈ ds, it.precio_unitario = none) →
      PedidoServicio.validarItemsLoop σ ds = .ok ds' →
      ds'.map (fun it => (it.producto_id, it.precio_unitario))
        = ds.map (fun it =>
            (it.producto_id,
             (ProductoDAO.get_by_id σ it.producto_id).map Producto.precio))
      ∧ ∀ x ∈ ds', x.precio_unitario.isSome = true := by
  intro ds
  induction ds with
  | nil =>
    intro ds' _ h
    simp only [PedidoServicio.validarItemsLoop] at h
    injection h with h1
    rw [← h1]
    exact ⟨rfl, by simp⟩
  | cons it rest ih =>
    intro ds' hnone h
    simp only [PedidoServicio.validarItemsLoop] at h
    by_cases h1 : it.cantidad ≤ 0
    · rw [if_pos h1] at h
      exact Except.noConfusion h
    · rw [if_neg h1] at h
      cases hg : ProductoDAO.get_by_id σ it.producto_id with
      | none =>
        simp only [hg] at h
        exact Except.noConfusion h
      | some prod =>
        simp only [hg] at h
        by_cases h2 : prod.cantidad < it.cantidad
        · rw [if_pos h2] at h
          exact Except.noConfusion h
        · rw [if_neg h2] at h
          cases hr : PedidoServicio.validarItemsLoop σ rest with
          | error e =>
            rw [hr] at h
            exact Except.noConfusion h
          | ok rest' =>
            rw [hr] at h
            injection h with h1
            rw [← h1]
            have hpn : it.precio_unitario = none := hnone it (by simp)
            have hrest : ∀ x ∈ rest, x.precio_unitario = none :=
              fun x hx => hnone x (by simp [hx])
            obtain ⟨ihm, ihs⟩ := ih rest' hrest hr
            constructor
            · simp only [List.map]
              rw [ihm]
              simp [hpn, hg]
            · intro x hx
              simp only [List.mem_cons] at hx
              rcases hx with rfl | hx
              · rfl
              · exact ihs x hx

/-- On items whose unit price is already set, a successful run of the
DAO's validation loop keeps each line's (product, price) pair. -/
theorem validarYPoblar_precio_some (σ : Store) :
    ∀ (ds : List DetallePedido) (t : Rat) (res : List DetallePedido × Rat),
      (∀ it ∈ ds, it.precio_unitario.isSome = true) →
      PedidoDAO.validarYPoblar σ ds t = .ok res →
      res.1.map (fun it => (it.producto_id, it.precio_unitario))
        = ds.map (fun it => (it.producto_id, it.precio_unitario)) := by
  intro ds
  induction ds with
  | nil =>
    intro t res hsome h
    simp only [PedidoDAO.validarYPoblar] at h
    injection h with h1
    rw [← h1]
  | cons it rest ih =>
    intro t res hsome h
    simp only [PedidoDAO.validarYPoblar] at h
    cases hg : ProductoDAO.get_by_id σ it.producto_id with
    | none =>
      simp only [hg] at h
      exact Except.noConfusion h
    | some row =>
      simp only [hg] at h
      by_cases h1 : it.cantidad ≤ 0
      · rw [if_pos h1] at h
        exact Except.noConfusion h
      · rw [if_neg h1] at h
        by_cases h2 : row.cantidad < it.cantidad
        · rw [if_pos h2] at h
          exact Except.noConfusion h
        · rw [if_neg h2] at h
          cases hr : PedidoDAO.validarYPoblar σ rest
              (t + (it.precio_unitario.getD row.precio) * (it.cantidad : Rat)) with
          | error e =>
            rw [hr] at h
            exact Except.noConfusion h
          | ok pr =>
            obtain ⟨rest', total'⟩ := pr
            rw [hr] at h
            injection h with h1
            rw [← h1]
            have hhead : it.precio_unitario
                = some (it.precio_unitario.getD row.precio) := by
              obtain ⟨v, hv⟩ := Option.isSome_iff_exists.mp (hsome it (by simp))
              rw [hv]
              rfl
            have hrest : ∀ x ∈ rest, x.precio_unitario.isSome = true :=
              fun x hx => hsome x (by simp [hx])
            dsimp only
            simp only [List.map]
            rw [ih _ (rest', total') hrest hr]
            congr 1
            dsimp only
            rw [← hhead]

/-- A successful `PedidoDAO.create` keeps each line's (product, price)
pair when all prices were already filled (it only sets `pedido_id`). -/
theorem create_ok_precios (σ : Store) (p ped : Pedido) (σ' : Store)
    (hsome : ∀ it ∈ p.items, it.precio_unitario.isSome = true)
    (h : PedidoDAO.create σ p = (.ok ped, σ')) :
    ped.items.map (fun it => (it.producto_id, it.precio_unitario))
      = p.items.map (fun it => (it.producto_id, it.precio_unitario)) := by
  unfold PedidoDAO.create at h
  split at h
  · injection h with h1 h2
    exact Except.noConfusion h1
  · split at h
    · injection h with h1 h2
      exact Except.noConfusion h1
    · rename_i items' total heq
      injection h with h1 h2
      injection h1 with h1
      rw [← h1]
      dsimp only
      rw [List.map_map]
      exact validarYPoblar_precio_some σ p.items 0 (items', total) hsome heq

/-- C10.  When `crear_pedido` receives a dict payload, each item is
rebuilt from only `producto_id` and `cantidad`: any unit price the caller
supplied is discarded, and on success each resulting line's
`precio_unitario` is the product's current stored price. -/
theorem crear_pedido_dict_descarta_precio (σ : Store) (uid : Int)
    (estado : String) (items : List RawItem) (ped : Pedido) (σ' : Store)
    (h : PedidoServicio.crear_pedido σ (.dict (some uid) estado items)
          = (.ok ped, σ')) :
    ped.items.map (fun it => (it.producto_id, it.precio_unitario))
      = items.map (fun it =>
          (it.producto_id,
           (ProductoDAO.get_by_id σ it.producto_id).map Producto.precio)) := by
  unfold PedidoServicio.crear_pedido at h
  by_cases hemp : items.isEmpty
  · simp [PedidoServicio.construirPedido, hemp] at h
  · simp only [PedidoServicio.construirPedido, hemp, Bool.false_eq_true,
      if_false] at h
    cases hu : PedidoServicio.validar_usuario σ uid with
    | error e =>
      rw [hu] at h
      exact Except.noConfusion (congrArg Prod.fst h)
    | ok u =>
      rw [hu] at h
      cases hv : PedidoServicio.validar_items_y_enriquecer σ
          { id := none, usuario_id := some uid, estado := estado,
            items := items.map
              (fun it => ⟨it.producto_id, it.cantidad, none, none⟩),
            total := 0 } with
      | error e =>
        rw [hv] at h
        exact Except.noConfusion (congrArg Prod.fst h)
      | ok pedido' =>
        rw [hv] at h
        dsimp only at h
        -- dissect the enrichment
        unfold PedidoServicio.validar_items_y_enriquecer at hv
        split at hv
        · exact Except.noConfusion hv
        · cases hl : PedidoServicio.validarItemsLoop σ
              ((items.map
                (fun it => ⟨it.producto_id, it.cantidad, none, none⟩)
                  : List DetallePedido)) with
          | error e =>
            rw [hl] at hv
            exact Except.noConfusion hv
          | ok items1 =>
            rw [hl] at hv
            injection hv with hv1
            have hnone : ∀ x ∈ (items.map
                (fun it => (⟨it.producto_id, it.cantidad, none, none⟩
                  : DetallePedido))), x.precio_unitario = none := by
              intro x hx
              obtain ⟨raw, _, rfl⟩ := List.mem_map.mp hx
              rfl
            obtain ⟨hm, hs⟩ := validarItemsLoop_precio_none σ _ items1 hnone hl
            have hsome' : ∀ x ∈ pedido'.items, x.precio_unitario.isSome = true := by
              rw [← hv1]
              exact hs
            cases hcr : PedidoDAO.create σ pedido' with
            | mk fst snd =>
              rw [hcr] at h
              cases fst with
              | error e =>
                dsimp only at h
                exact Except.noConfusion (congrArg Prod.fst h)
              | ok creado =>
                dsimp only at h
                have hped : creado = ped := by
                  have := congrArg Prod.fst h
                  exact Except.ok.inj this
                rw [← hped]
                have hcreate := create_ok_precios σ pedido' creado snd hsome'
                  (by rw [hcr])
                rw [hcreate]
                have hitems : pedido'.items = items1 := by
                  rw [← hv1]
                rw [hitems, hm, List.map_map]
                rfl

/-- Witness for C10: a dict payload supplying a bogus unit price 999 for
product 1 succeeds with the line priced at the stored price 10. -/
theorem crear_pedido_dict_descarta_precio_witness :
    (PedidoServicio.crear_pedido storeBase
        (.dict (some 1) ("pendiente") [⟨1, 3, some 999⟩])).1.toOption.map
      (fun ped => ped.items.map (fun it => (it.producto_id, it.precio_unitario)))
      = some [((1 : Int), some (10 : Rat))] := by
  cases hres : PedidoServicio.crear_pedido storeBase
      (.dict (some 1) ("pendiente") [⟨1, 3, some 999⟩]) with
  | mk fst snd =>
    cases fst with
    | error e =>
      have hok : (PedidoServicio.crear_pedido storeBase
          (.dict (some 1) ("pendiente") [⟨1, 3, some 999⟩])).1.isOk = true := by
        decide
      rw [hres] at hok
      simp [Except.isOk, Except.toBool] at hok
    | ok creado =>
      have hmap := crear_pedido_dict_descarta_precio storeBase 1 ("pendiente")
        [⟨1, 3, some 999⟩] creado snd hres
      simp only [Except.toOption, Option.map]
      rw [hmap]
      decide

end Gerencia
